import Mathlib

/-!
# Verification of the fis-alpine-analytics specification

Shallow embedding of the fis-alpine-analytics repository against its
natural-language specification.

The repository ships the React frontend under src/fis-frontend
(AthleteProfile.tsx, AthleteCard.tsx, Dashboard.tsx, services/api.ts);
those files are embedded directly from the source.  The FastAPI analytics
backend (Field Statistics Engine, Z-Score Calculator, Strokes-Gained
Calculator, Regression Engine, Quintile Bucketer, Momentum Tracker, Query
Orchestrator) is referenced by the frontend API client but its source is
not included in the repository snapshot; definitions for those components
are modelled from the specification and say so in their doc comments.
-/

namespace FisAnalytics

/-! ## Decimal rendering of numbers, as performed by the JavaScript runtime

AthleteProfile.tsx compares year strings produced by
new Date(item.date).getFullYear().toString() against the value of the year
select element.  getFullYear returns either an integer year or NaN (for an
unparseable date); toString renders the integer in decimal and renders NaN
as the string "NaN".
-/

/-- Little-endian base-10 digit list of a natural number. -/
def toDecimalDigits (n : Nat) : List Nat :=
  if _h : n < 10 then [n]
  else n % 10 :: toDecimalDigits (n / 10)
decreasing_by exact Nat.div_lt_self (by omega) (by omega)

/-- Numeric value of a little-endian digit list. -/
def ofDecimalDigits : List Nat → Nat
  | [] => 0
  | d :: ds => d + 10 * ofDecimalDigits ds

theorem ofDecimalDigits_toDecimalDigits (n : Nat) :
    ofDecimalDigits (toDecimalDigits n) = n := by
  induction n using Nat.strong_induction_on with
  | _ n ih =>
    rw [toDecimalDigits]
    split
    · simp [ofDecimalDigits]
    · rename_i h
      simp only [ofDecimalDigits]
      rw [ih (n / 10) (Nat.div_lt_self (by omega) (by omega))]
      omega

theorem toDecimalDigits_injective : Function.Injective toDecimalDigits := by
  intro a b h
  have := ofDecimalDigits_toDecimalDigits a
  rw [h, ofDecimalDigits_toDecimalDigits b] at this
  omega

theorem toDecimalDigits_lt (n : Nat) : ∀ d ∈ toDecimalDigits n, d < 10 := by
  induction n using Nat.strong_induction_on with
  | _ n ih =>
    rw [toDecimalDigits]
    split
    · rename_i h
      intro d hd
      simp only [List.mem_singleton] at hd
      omega
    · rename_i h
      intro d hd
      rcases List.mem_cons.mp hd with h1 | h2
      · omega
      · exact ih (n / 10) (Nat.div_lt_self (by omega) (by omega)) d h2

theorem toDecimalDigits_ne_nil (n : Nat) : toDecimalDigits n ≠ [] := by
  rw [toDecimalDigits]
  split <;> simp

/-- The character a JavaScript runtime prints for a single decimal digit. -/
def digitToChar (d : Nat) : Char := Char.ofNat (48 + d)

theorem digitToChar_inj :
    ∀ x, x < 10 → ∀ y, y < 10 → digitToChar x = digitToChar y → x = y := by
  decide

/-- JavaScript Number.prototype.toString applied to a nonnegative integer:
the base-10 digits, most significant first. -/
def natDecimalString (n : Nat) : String :=
  String.mk (((toDecimalDigits n).reverse).map digitToChar)

theorem map_digitToChar_inj :
    ∀ l1 l2 : List Nat, (∀ d ∈ l1, d < 10) → (∀ d ∈ l2, d < 10) →
      l1.map digitToChar = l2.map digitToChar → l1 = l2 := by
  intro l1
  induction l1 with
  | nil => intro l2 _ _ h; cases l2 <;> simp_all
  | cons a t ihl =>
    intro l2 h1 h2 h
    cases l2 with
    | nil => simp_all
    | cons b t2 =>
      simp only [List.map_cons, List.cons.injEq] at h
      have ha : a = b :=
        digitToChar_inj a (h1 a (by simp)) b (h2 b (by simp)) h.1
      have ht : t = t2 :=
        ihl t2 (fun d hd => h1 d (by simp [hd])) (fun d hd => h2 d (by simp [hd])) h.2
      rw [ha, ht]

theorem natDecimalString_injective : Function.Injective natDecimalString := by
  intro a b h
  have hdata : ((toDecimalDigits a).reverse).map digitToChar
      = ((toDecimalDigits b).reverse).map digitToChar :=
    congrArg String.data h
  have hrev : (toDecimalDigits a).reverse = (toDecimalDigits b).reverse :=
    map_digitToChar_inj _ _
      (fun d hd => toDecimalDigits_lt a d (List.mem_reverse.mp hd))
      (fun d hd => toDecimalDigits_lt b d (List.mem_reverse.mp hd)) hdata
  exact toDecimalDigits_injective (List.reverse_injective hrev)

theorem natDecimalString_ne_NaN (n : Nat) : natDecimalString n ≠ "NaN" := by
  intro h
  have hdata : ((toDecimalDigits n).reverse).map digitToChar = "NaN".data :=
    congrArg String.data h
  have hmem : ('N' : Char) ∈ ((toDecimalDigits n).reverse).map digitToChar := by
    rw [hdata]; decide
  rcases List.mem_map.mp hmem with ⟨d, hd, hN⟩
  have hlt : d < 10 := toDecimalDigits_lt n d (List.mem_reverse.mp hd)
  have : ∀ x, x < 10 → digitToChar x ≠ 'N' := by decide
  exact this d hlt hN

theorem natDecimalString_ne_empty (n : Nat) : natDecimalString n ≠ "" := by
  intro h
  have hdata : ((toDecimalDigits n).reverse).map digitToChar = ("" : String).data :=
    congrArg String.data h
  simp only [String.data] at hdata
  have := toDecimalDigits_ne_nil n
  simp_all

/-! ## Client-side filtering in AthleteProfile.tsx -/

/-- One row of the per-athlete lists held by the profile page (races,
momentum points, strokes-gained rows, course rows).  dateYear is the result
of new Date(item.date).getFullYear(): some y for a date in calendar year y,
none when the date string does not parse (the JavaScript value NaN). -/
structure RaceItem where
  dateYear : Option Nat
  discipline : String
deriving DecidableEq

/-- getFullYear().toString() as computed in filterByYearAndDiscipline:
NaN renders as the string "NaN", a year as its decimal digits. -/
def jsYearString : Option Nat → String
  | none => "NaN"
  | some y => natDecimalString y

/-- filterByYearAndDiscipline from AthleteProfile.tsx (lines 41 to 48):
a row passes when the year filter is unset or matches the row's rendered
year string, and the discipline filter is unset or matches the row's
discipline exactly.  The empty string is the unset filter value (JavaScript
falsiness of the empty string). -/
def filterByYearAndDiscipline
    (selectedYear selectedDiscipline : String) (item : RaceItem) : Bool :=
  (selectedYear == "" || jsYearString item.dateYear == selectedYear) &&
  (selectedDiscipline == "" || item.discipline == selectedDiscipline)

/-- C3: with both filters omitted every record is retained; a discipline
filter alone retains exactly the records whose discipline is an exact match
of the filter value; a year filter (the decimal string of a calendar year)
retains exactly the records whose date falls in that calendar year,
intersected with the discipline condition. -/
theorem c3_filter_semantics :
    (∀ item : RaceItem, filterByYearAndDiscipline "" "" item = true)
    ∧ (∀ (d : String) (item : RaceItem), d ≠ "" →
        (filterByYearAndDiscipline "" d item = true ↔ item.discipline = d))
    ∧ (∀ (y : Nat) (d : String) (item : RaceItem),
        filterByYearAndDiscipline (natDecimalString y) d item = true ↔
          item.dateYear = some y ∧ (d = "" ∨ item.discipline = d)) := by
  refine ⟨fun item => rfl, ?_, ?_⟩
  · intro d item hd
    simp [filterByYearAndDiscipline, hd]
  · intro y d item
    have hne : natDecimalString y ≠ "" := natDecimalString_ne_empty y
    cases hitem : item.dateYear with
    | none =>
      have hnan : ("NaN" : String) ≠ natDecimalString y :=
        fun h => natDecimalString_ne_NaN y h.symm
      by_cases hd : d = "" <;>
        simp [filterByYearAndDiscipline, jsYearString, hitem, hne, hnan, hd]
    | some z =>
      have hinj : natDecimalString z = natDecimalString y ↔ z = y :=
        ⟨fun h => natDecimalString_injective h, fun h => by rw [h]⟩
      by_cases hd : d = "" <;>
        simp [filterByYearAndDiscipline, jsYearString, hitem, hne, hinj, hd]

/-- Witness for C3 at a concrete record and filter pair. -/
theorem c3_filter_semantics_witness :
    filterByYearAndDiscipline "" "Slalom"
      { dateYear := some 2023, discipline := "Slalom" } = true :=
  (c3_filter_semantics.2.1 "Slalom" _ (by decide)).mpr rfl

/-- C10: the client-side filter predicate is a total Boolean function of the
record (totality holds by construction of the embedding; the source applies
only non-throwing operations), and whenever a year filter is selected (a
nonempty value that is an actual year string, hence not the literal "NaN"),
a record whose date failed to parse (computed year NaN) is excluded. -/
theorem c10_invalid_date_excluded :
    ∀ (sy sd : String) (item : RaceItem), sy ≠ "" → sy ≠ "NaN" →
      item.dateYear = none → filterByYearAndDiscipline sy sd item = false := by
  intro sy sd item hne hnan hitem
  have hnan2 : ("NaN" : String) ≠ sy := fun h => hnan h.symm
  simp [filterByYearAndDiscipline, jsYearString, hitem, hne, hnan2]

/-- Witness for C10: a record with an unparseable date is dropped under the
2023 year filter. -/
theorem c10_invalid_date_excluded_witness :
    filterByYearAndDiscipline "2023" ""
      { dateYear := none, discipline := "Slalom" } = false :=
  c10_invalid_date_excluded "2023" "" _ (by decide) (by decide) rfl

/-! ## Multi-statistic profile fetch in AthleteProfile.tsx -/

/-- The required profile payload fetched first by fetchData. -/
structure ProfileInfo where
  fisCode : String
  name : String
deriving DecidableEq

/-- A list endpoint response: the body may or may not carry a data array
(the source reads racesData.data || []). -/
structure ApiListResponse where
  data : Option (List RaceItem)
deriving DecidableEq

/-- Regression endpoint response body as consumed by the page: a discipline
label and one row per course characteristic. -/
structure RegressionPayload where
  discipline : String
  data : List (String × ℚ)
deriving DecidableEq

/-- Course-traits endpoint response body as consumed by the page: rows of
(trait, quintile, aggregate). -/
structure CourseTraitsPayload where
  data : List (String × Nat × ℚ)
deriving DecidableEq

/-- Outcome of each HTTP fetch issued by fetchData; Except.error models a
rejected promise caught by the surrounding try/catch. -/
structure FetchOutcomes where
  profile : Except Unit ProfileInfo
  races : Except Unit ApiListResponse
  momentum : Except Unit ApiListResponse
  courses : Except Unit ApiListResponse
  strokesGained : Except Unit ApiListResponse
  strokesGainedBib : Except Unit ApiListResponse
  regression : Except Unit RegressionPayload
  courseTraits : Except Unit CourseTraitsPayload

/-- The page state set by fetchData (the useState slots of
AthleteProfile.tsx). -/
structure ProfileState where
  profile : ProfileInfo
  races : List RaceItem
  momentum : List RaceItem
  courses : List RaceItem
  strokesGained : List RaceItem
  strokesGainedBib : List RaceItem
  regression : Option RegressionPayload
  courseTraits : Option CourseTraitsPayload
deriving DecidableEq

/-- fetchData from AthleteProfile.tsx (lines 51 to 126), embedded as the
same sequence of state updates: the profile fetch is required (its failure
fails the whole request); each statistic fetch sits in its own try/catch
that on failure stores the empty list (or null for the regression and
course-traits objects) and moves on. -/
def fetchData (o : FetchOutcomes) : Except Unit ProfileState :=
  match o.profile with
  | .error e => .error e
  | .ok p =>
    let s : ProfileState :=
      { profile := p, races := [], momentum := [], courses := [],
        strokesGained := [], strokesGainedBib := [],
        regression := none, courseTraits := none }
    let s := match o.races with
      | .ok r => { s with races := r.data.getD [] }
      | .error _ => { s with races := [] }
    let s := match o.momentum with
      | .ok r => { s with momentum := r.data.getD [] }
      | .error _ => { s with momentum := [] }
    let s := match o.courses with
      | .ok r => { s with courses := r.data.getD [] }
      | .error _ => { s with courses := [] }
    let s := match o.strokesGained with
      | .ok r => { s with strokesGained := r.data.getD [] }
      | .error _ => { s with strokesGained := [] }
    let s := match o.strokesGainedBib with
      | .ok r => { s with strokesGainedBib := r.data.getD [] }
      | .error _ => { s with strokesGainedBib := [] }
    let s := match o.regression with
      | .ok r => { s with regression := some r }
      | .error _ => { s with regression := none }
    let s := match o.courseTraits with
      | .ok r => { s with courseTraits := some r }
      | .error _ => { s with courseTraits := none }
    .ok s

/-- Value a single list-statistic slot ends up holding: the response data
array, or the empty list when the body has none or the fetch failed. -/
def resolveList (r : Except Unit ApiListResponse) : List RaceItem :=
  match r with
  | .ok resp => resp.data.getD []
  | .error _ => []

/-- Value a single object-statistic slot ends up holding: the response, or
null (none) when the fetch failed. -/
def resolveOpt {α : Type} (r : Except Unit α) : Option α :=
  match r with
  | .ok v => some v
  | .error _ => none

/-- C4: when the required profile fetch succeeds, every statistic slot is a
function of that statistic's own fetch outcome alone — a failing statistic
is stored as no data (empty list or null) while every other slot is
unaffected, and the multi-statistic response is never aborted; a failed
fetch always resolves to the empty or null variant. -/
theorem c4_statistics_fail_independently :
    (∀ (o : FetchOutcomes) (p : ProfileInfo), o.profile = Except.ok p →
      fetchData o = Except.ok
        { profile := p
          races := resolveList o.races
          momentum := resolveList o.momentum
          courses := resolveList o.courses
          strokesGained := resolveList o.strokesGained
          strokesGainedBib := resolveList o.strokesGainedBib
          regression := resolveOpt o.regression
          courseTraits := resolveOpt o.courseTraits })
    ∧ (∀ r : Except Unit ApiListResponse, r = Except.error () → resolveList r = [])
    ∧ (∀ r : Except Unit RegressionPayload, r = Except.error () → resolveOpt r = none) := by
  refine ⟨?_, ?_, ?_⟩
  · intro o p h
    obtain ⟨pr, r1, r2, r3, r4, r5, r6, r7⟩ := o
    simp only at h
    subst h
    cases r1 <;> cases r2 <;> cases r3 <;> cases r4 <;> cases r5 <;>
      cases r6 <;> cases r7 <;> rfl
  · intro r h; subst h; rfl
  · intro r h; subst h; rfl

/-- Witness for C4: with the momentum, strokes-gained and regression
fetches failing and the rest succeeding, the failed slots hold no data and
the others hold their own payloads. -/
theorem c4_statistics_fail_independently_witness :
    fetchData
      { profile := Except.ok { fisCode := "511383", name := "A Skier" }
        races := Except.ok { data := some [{ dateYear := some 2023, discipline := "Slalom" }] }
        momentum := Except.error ()
        courses := Except.ok { data := none }
        strokesGained := Except.error ()
        strokesGainedBib := Except.ok { data := some [] }
        regression := Except.error ()
        courseTraits := Except.ok { data := [("vertical_drop", 3, (1 : ℚ) / 2)] } }
      = Except.ok
      { profile := { fisCode := "511383", name := "A Skier" }
        races := [{ dateYear := some 2023, discipline := "Slalom" }]
        momentum := []
        courses := []
        strokesGained := []
        strokesGainedBib := []
        regression := none
        courseTraits := some { data := [("vertical_drop", 3, (1 : ℚ) / 2)] } } :=
  c4_statistics_fail_independently.1 _ _ rfl

/-! ## Statistic display: AthleteCard.tsx and AthleteProfile.tsx -/

/-- The wins, podiums and starts cells of the dashboard athlete card
(AthleteCard.tsx lines 47 to 66): each renders through the JavaScript
or-else athlete.wins || 0, which supplies the number 0 when the field is
missing (undefined). -/
def cardCountDisplay (v : Option Nat) : Nat :=
  match v with
  | none => 0
  | some n => n

/-- Numeric cells of the athlete profile page, such as
race.fis_points?.toFixed(1) || the string N/A: a missing value renders as
the flagged string "N/A"; a present value renders through the formatter,
with the or-else taken only for a falsy (empty) formatted string, which
toFixed never produces. -/
def profileStatDisplay (fmt : ℚ → String) (v : Option ℚ) : String :=
  match v with
  | none => "N/A"
  | some x => if fmt x = "" then "N/A" else fmt x

/-- C5 counterexample: the dashboard athlete card presents the number 0 for
a missing wins count — indistinguishable from a true zero — so the program
does substitute a sentinel zero for a missing statistic. -/
theorem c5_sentinel_zero_counterexample :
    cardCountDisplay none = 0 ∧ cardCountDisplay none = cardCountDisplay (some 0) :=
  ⟨rfl, rfl⟩

/-- C5 amended: the athlete profile page renders a missing numeric
statistic as the flagged string "N/A", never as a number; the dashboard
athlete card however substitutes the sentinel 0 for missing wins, podiums
and starts counts. -/
theorem c5_missing_statistic_display :
    (∀ fmt : ℚ → String, profileStatDisplay fmt none = "N/A")
    ∧ cardCountDisplay none = 0 :=
  ⟨fun _ => rfl, rfl⟩

/-! ## Query Orchestrator (spec section 4.7) -/

/-- Modelled from the spec: the five per-athlete calculators among which
the Query Orchestrator routes requests (the analytics backend source is not
in the repository snapshot; only its frontend callers are). -/
inductive Calculator
  | zScores
  | strokesGained
  | regression
  | courseTraitQuintiles
  | momentum
deriving DecidableEq

/-- Year and discipline filters carried by a request. -/
structure QueryFilters where
  year : Option Nat
  discipline : Option String
deriving DecidableEq

/-- Modelled from the spec: a precomputed aggregate held by the Aggregate
Cache (section 4.8), carrying its refresh timestamp and validity. -/
structure PrecomputedAggregate where
  refreshedAt : Nat
  valid : Bool
deriving DecidableEq

/-- Which path the orchestrator serves a request from. -/
inductive ServePath
  | cached
  | live
deriving DecidableEq

/-- Modelled from the spec (section 4.7, Query Orchestrator; backend source
absent): if no year filter is present, serve from the Aggregate Cache when
present and valid; otherwise (year filter given, or cache absent or
invalid) recompute live against the Result Store.  The discipline filter is
applied as a scan predicate on either path and plays no part in the
decision. -/
def servePath (_c : Calculator) (f : QueryFilters)
    (cache : Option PrecomputedAggregate) : ServePath :=
  match f.year, cache with
  | none, some a => if a.valid then .cached else .live
  | none, none => .live
  | some _, _ => .live

/-- Digit value of a character, as JavaScript parseInt reads it. -/
def charToDigit? (c : Char) : Option Nat :=
  if 48 ≤ c.toNat ∧ c.toNat ≤ 57 then some (c.toNat - 48) else none

/-- JavaScript parseInt restricted to the year select values, which are
pure decimal year strings. -/
def parseYear (s : String) : Option Nat :=
  s.data.foldl
    (fun acc c => acc.bind (fun n => (charToDigit? c).map (fun d => 10 * n + d)))
    (some 0)

/-- fetchAggregateData from AthleteProfile.tsx (lines 129 to 155): the
request parameters sent to the regression and course-traits endpoints carry
the discipline filter when one is selected and the parsed year filter when
one is selected (the source guards each with JavaScript truthiness). -/
def fetchAggregateFilters (selectedYear selectedDiscipline : String) : QueryFilters :=
  { year := if selectedYear == "" then none else parseYear selectedYear,
    discipline := if selectedDiscipline == "" then none else some selectedDiscipline }

/-- C1: for every request to any of the five calculators, a year filter
forces the live path even when a valid cached aggregate exists; with no
year filter and a valid cached aggregate present, the cached aggregate is
served; the serve-path decision is independent of the discipline filter, so
a discipline filter alone never forces the live path; and the end-to-end
scenario: the request the frontend builds for year 2023 hits the live path
despite a valid cached all-time aggregate. -/
theorem c1_orchestrator_paths :
    (∀ (c : Calculator) (f : QueryFilters) (cache : Option PrecomputedAggregate)
        (y : Nat), f.year = some y → servePath c f cache = ServePath.live)
    ∧ (∀ (c : Calculator) (f : QueryFilters) (a : PrecomputedAggregate),
        f.year = none → a.valid = true → servePath c f (some a) = ServePath.cached)
    ∧ (∀ (c : Calculator) (y : Option Nat) (d d' : Option String)
        (cache : Option PrecomputedAggregate),
        servePath c { year := y, discipline := d } cache
          = servePath c { year := y, discipline := d' } cache)
    ∧ servePath Calculator.regression (fetchAggregateFilters "2023" "Slalom")
        (some { refreshedAt := 0, valid := true }) = ServePath.live := by
  refine ⟨?_, ?_, ?_, ?_⟩
  · intro c f cache y h
    cases cache <;> simp [servePath, h]
  · intro c f a hy hv
    simp [servePath, hy, hv]
  · intro c y d d' cache
    rfl
  · rfl

/-- Witness for C1: a year-2023 request with a valid cached aggregate is
recomputed live. -/
theorem c1_orchestrator_paths_witness :
    servePath Calculator.zScores { year := some 2023, discipline := some "Slalom" }
      (some { refreshedAt := 5, valid := true }) = ServePath.live :=
  c1_orchestrator_paths.1 Calculator.zScores _ _ 2023 rfl

/-! ## Field Statistics Engine and Z-Score Calculator (spec 4.1, 4.2) -/

/-- Modelled from the spec (section 4.1; backend source absent): the mean
of the performance measures of the valid results in one race field. -/
def fieldMean (xs : List ℚ) : ℚ := xs.sum / xs.length

/-- Modelled from the spec (sections 4.1 and 8; backend source absent): the
population variance of the performance measures (section 8 fixes the
population convention: the z-scores of a field have population standard
deviation 1). -/
def fieldVariance (xs : List ℚ) : ℚ :=
  ((xs.map (fun x => (x - fieldMean xs) ^ 2)).sum) / xs.length

/-- Population standard deviation of a field. -/
noncomputable def fieldStddev (xs : List ℚ) : ℝ :=
  Real.sqrt ((fieldVariance xs : ℝ))

/-- Modelled from the spec (section 4.2; backend source absent): the
z-score of one measure against its field, (measure − mean) / stddev,
sign-flipped because FIS points are a lower-is-better metric. -/
noncomputable def zScore (xs : List ℚ) (x : ℚ) : ℝ :=
  -(((x : ℝ) - ((fieldMean xs : ℚ) : ℝ)) / fieldStddev xs)

/-- C2: on a lower-is-better measure the result with the lowest measure in
the field attains the maximum z-score, and on the field [10, 12, 14] the
mean is 12, the standard deviation is about 1.63 (strictly between 1.63 and
1.64), and the athlete with measure 10 gets a z-score of about +1.22
(strictly between 1.21 and 1.23), the maximum of the field. -/
theorem c2_zscore_sign_and_example :
    (∀ (xs : List ℚ) (b x : ℚ), b ∈ xs → x ∈ xs → 0 < fieldVariance xs →
        (∀ y ∈ xs, b ≤ y) → zScore xs x ≤ zScore xs b)
    ∧ fieldMean [10, 12, 14] = 12
    ∧ fieldVariance [10, 12, 14] = 8 / 3
    ∧ (163 / 100 : ℝ) < fieldStddev [10, 12, 14]
    ∧ fieldStddev [10, 12, 14] < 164 / 100
    ∧ (121 / 100 : ℝ) < zScore [10, 12, 14] 10
    ∧ zScore [10, 12, 14] 10 < 123 / 100
    ∧ (∀ y ∈ ([10, 12, 14] : List ℚ),
        zScore [10, 12, 14] y ≤ zScore [10, 12, 14] 10) := by
  have hgen : ∀ (xs : List ℚ) (b x : ℚ), b ∈ xs → x ∈ xs →
      0 < fieldVariance xs → (∀ y ∈ xs, b ≤ y) → zScore xs x ≤ zScore xs b := by
    intro xs b x _hb hx hvar hmin
    have hvr : (0 : ℝ) < ((fieldVariance xs : ℚ) : ℝ) := by exact_mod_cast hvar
    have hs : 0 < fieldStddev xs := Real.sqrt_pos.mpr hvr
    have hbx : ((b : ℚ) : ℝ) ≤ ((x : ℚ) : ℝ) := by exact_mod_cast hmin x hx
    simp only [zScore, neg_le_neg_iff]
    exact (div_le_div_iff_of_pos_right hs).mpr (by linarith)
  have hmean : fieldMean [10, 12, 14] = 12 := by
    norm_num [fieldMean]
  have hvar : fieldVariance [10, 12, 14] = 8 / 3 := by
    norm_num [fieldVariance, fieldMean]
  have hsd : fieldStddev [10, 12, 14] = Real.sqrt (8 / 3) := by
    rw [fieldStddev, hvar]; norm_num
  have hlb : (163 / 100 : ℝ) < fieldStddev [10, 12, 14] := by
    rw [hsd]
    exact (Real.lt_sqrt (by norm_num)).mpr (by norm_num)
  have hub : fieldStddev [10, 12, 14] < 164 / 100 := by
    rw [hsd]
    exact (Real.sqrt_lt' (by norm_num)).mpr (by norm_num)
  have hspos : (0 : ℝ) < fieldStddev [10, 12, 14] := by linarith
  have hz : zScore [10, 12, 14] 10 = 2 / fieldStddev [10, 12, 14] := by
    rw [zScore, hmean]
    push_cast
    ring
  have hzlb : (121 / 100 : ℝ) < zScore [10, 12, 14] 10 := by
    rw [hz, lt_div_iff₀ hspos]
    nlinarith
  have hzub : zScore [10, 12, 14] 10 < 123 / 100 := by
    rw [hz, div_lt_iff₀ hspos]
    nlinarith
  refine ⟨hgen, hmean, hvar, hlb, hub, hzlb, hzub, ?_⟩
  intro y hy
  refine hgen [10, 12, 14] 10 y (by norm_num) hy ?_ ?_
  · rw [hvar]; norm_num
  · intro z hz
    fin_cases hz <;> norm_num

/-- Witness for C2: in the field [10, 12, 14], the measure-12 result's
z-score does not exceed that of the measure-10 result. -/
theorem c2_zscore_sign_and_example_witness :
    zScore [10, 12, 14] 12 ≤ zScore [10, 12, 14] 10 :=
  c2_zscore_sign_and_example.1 [10, 12, 14] 10 12 (by norm_num) (by norm_num)
    (by rw [c2_zscore_sign_and_example.2.2.1]; norm_num)
    (by intro y hy; fin_cases hy <;> norm_num)

/-! ## Regression Engine (spec section 4.4) -/

/-- Modelled from the spec: the course characteristics the Regression
Engine fits, one simple regression each. -/
inductive Characteristic
  | verticalDrop
  | gateCount
  | startAltitude
deriving DecidableEq

/-- Course characteristics of one race. -/
structure CourseChars where
  verticalDrop : ℚ
  gateCount : ℚ
  startAltitude : ℚ
deriving DecidableEq

/-- Value of one characteristic on one course. -/
def charValue : Characteristic → CourseChars → ℚ
  | .verticalDrop, c => c.verticalDrop
  | .gateCount, c => c.gateCount
  | .startAltitude, c => c.startAltitude

/-- One qualifying race of the athlete: its course characteristics and the
athlete's z-score in it. -/
structure AthleteRaceObs where
  chars : CourseChars
  z : ℚ
deriving DecidableEq

/-- Population covariance of a list of paired values. -/
def covQ (ps : List (ℚ × ℚ)) : ℚ :=
  ((ps.map (fun p => (p.1 - fieldMean (ps.map Prod.fst))
      * (p.2 - fieldMean (ps.map Prod.snd)))).sum) / ps.length

/-- Outcome of the per-characteristic simple OLS fit. -/
inductive CharFit
  | degenerateCharacteristic
  | fitted (slope : ℚ)
deriving DecidableEq

/-- Modelled from the spec (section 4.4; backend source absent): simple
linear regression of z-score on one characteristic.  A characteristic with
zero variance across the athlete's races yields the flagged
DegenerateCharacteristic and no slope; the slope quotient is formed only
under a nonzero variance, so the computation never divides by zero.
(Standard error and p-value accompany the slope in the spec; they are
outside the degenerate-variance claim and omitted here.) -/
def fitCharacteristic (ps : List (ℚ × ℚ)) : CharFit :=
  if fieldVariance (ps.map Prod.fst) = 0 then .degenerateCharacteristic
  else .fitted (covQ ps / fieldVariance (ps.map Prod.fst))

/-- The (characteristic value, z-score) points for one characteristic over
the athlete's qualifying races. -/
def charPoints (c : Characteristic) (obs : List AthleteRaceObs) : List (ℚ × ℚ) :=
  obs.map (fun o => (charValue c o.chars, o.z))

/-- One row of the returned coefficient set. -/
structure CoefficientRow where
  characteristic : Characteristic
  slope : ℚ
deriving DecidableEq

/-- Failure of the whole regression request. -/
inductive RegressionFailure
  | insufficientSample
deriving DecidableEq

/-- The characteristics fitted for every request. -/
def allCharacteristics : List Characteristic :=
  [.verticalDrop, .gateCount, .startAltitude]

/-- Modelled from the spec (section 4.4; backend source absent): requires
at least 5 qualifying races, else InsufficientSample; fits each
characteristic independently; a degenerate characteristic is omitted from
the coefficient set. -/
def athleteRegression (obs : List AthleteRaceObs) :
    Except RegressionFailure (List CoefficientRow) :=
  if obs.length < 5 then .error .insufficientSample
  else .ok (allCharacteristics.filterMap (fun c =>
    match fitCharacteristic (charPoints c obs) with
    | .degenerateCharacteristic => none
    | .fitted s => some { characteristic := c, slope := s }))

/-- C6: a course characteristic with zero variance across the athlete's
qualifying races is reported as DegenerateCharacteristic, is omitted from
the returned coefficient set, and every slope in the returned set is the
covariance-over-variance quotient with a provably nonzero denominator — no
division by zero is ever performed. -/
theorem c6_degenerate_characteristic :
    (∀ ps : List (ℚ × ℚ), fieldVariance (ps.map Prod.fst) = 0 →
        fitCharacteristic ps = CharFit.degenerateCharacteristic)
    ∧ (∀ (obs : List AthleteRaceObs) (c : Characteristic)
        (rows : List CoefficientRow),
        athleteRegression obs = Except.ok rows →
        fieldVariance ((charPoints c obs).map Prod.fst) = 0 →
        ∀ row ∈ rows, row.characteristic ≠ c)
    ∧ (∀ (obs : List AthleteRaceObs) (rows : List CoefficientRow),
        athleteRegression obs = Except.ok rows →
        ∀ row ∈ rows,
          fieldVariance ((charPoints row.characteristic obs).map Prod.fst) ≠ 0
          ∧ row.slope = covQ (charPoints row.characteristic obs)
              / fieldVariance ((charPoints row.characteristic obs).map Prod.fst)) := by
  have h1 : ∀ ps : List (ℚ × ℚ), fieldVariance (ps.map Prod.fst) = 0 →
      fitCharacteristic ps = CharFit.degenerateCharacteristic := by
    intro ps h
    simp [fitCharacteristic, h]
  refine ⟨h1, ?_, ?_⟩
  · intro obs c rows hok hvar row hrow
    rw [athleteRegression] at hok
    split at hok
    · cases hok
    · injection hok with hok
      subst hok
      rcases List.mem_filterMap.mp hrow with ⟨c', _hc', hmatch⟩
      intro hcc
      cases hfit : fitCharacteristic (charPoints c' obs) with
      | degenerateCharacteristic => rw [hfit] at hmatch; cases hmatch
      | fitted s =>
        rw [hfit] at hmatch
        injection hmatch with hmatch
        subst hmatch
        simp only at hcc
        subst hcc
        rw [h1 _ hvar] at hfit
        cases hfit
  · intro obs rows hok row hrow
    rw [athleteRegression] at hok
    split at hok
    · cases hok
    · injection hok with hok
      subst hok
      rcases List.mem_filterMap.mp hrow with ⟨c', _hc', hmatch⟩
      cases hfit : fitCharacteristic (charPoints c' obs) with
      | degenerateCharacteristic => rw [hfit] at hmatch; cases hmatch
      | fitted s =>
        rw [hfit] at hmatch
        injection hmatch with hmatch
        subst hmatch
        rw [fitCharacteristic] at hfit
        split at hfit
        · cases hfit
        · rename_i hvz
          injection hfit with hs
          exact ⟨hvz, hs.symm⟩

/-- Witness for C6: a characteristic column constant at 500 over the
athlete's races is reported degenerate. -/
theorem c6_degenerate_characteristic_witness :
    fitCharacteristic [((500 : ℚ), 1), (500, 2), (500, 3)]
      = CharFit.degenerateCharacteristic :=
  c6_degenerate_characteristic.1 _ (by norm_num [fieldVariance, fieldMean])

/-! ## Quintile Bucketer (spec section 4.5) -/

/-- Sorted copy of a list of trait values. -/
def sortedVals (xs : List ℚ) : List ℚ := xs.mergeSort (fun a b => decide (a ≤ b))

/-- Modelled from the spec (section 4.5; backend source absent):
linear-interpolation percentile over a population of trait values, at
fraction p through the sorted population (the order-statistics
interpolation of PERCENTILE_CONT). -/
def percentileCont (xs : List ℚ) (p : ℚ) : ℚ :=
  let s := sortedVals xs
  let n := s.length
  if n = 0 then 0
  else
    let pos : ℚ := p * ((n : ℚ) - 1)
    let i : Nat := (⌊pos⌋).toNat
    let lo := s.getD i 0
    let hi := s.getD (min (i + 1) (n - 1)) 0
    lo + (pos - (i : ℚ)) * (hi - lo)

/-- The four quintile boundary values: the 20th, 40th, 60th and 80th
percentiles of the entire course population's values for the trait. -/
def quintileBoundaries (population : List ℚ) : List ℚ :=
  [1 / 5, 2 / 5, 3 / 5, 4 / 5].map (percentileCont population)

/-- Quintile index (1 to 5) of a trait value against the boundaries. -/
def quintileOf (population : List ℚ) (v : ℚ) : Nat :=
  1 + ((quintileBoundaries population).filter (fun b => decide (b < v))).length

/-- One qualifying race for the quintile query: the course's trait value,
the athlete's z-score and rank, and the race's year and discipline. -/
structure TraitRaceObs where
  traitValue : ℚ
  z : ℚ
  rank : ℚ
  year : Nat
  discipline : String
deriving DecidableEq

/-- Per-quintile aggregate row: race count, with null aggregates when the
athlete has no race in the quintile. -/
structure QuintileRecord where
  quintile : Nat
  raceCount : Nat
  avgZ : Option ℚ
  avgRank : Option ℚ
deriving DecidableEq

/-- Whether a race passes the request's year and discipline filters. -/
def filtersMatch (f : QueryFilters) (o : TraitRaceObs) : Bool :=
  (match f.year with | none => true | some y => o.year == y) &&
  (match f.discipline with | none => true | some d => o.discipline == d)

/-- Result of the course-trait quintile query for one trait: the boundary
values used and the five per-quintile records. -/
structure TraitQuintilesResult where
  boundaries : List ℚ
  records : List QuintileRecord
deriving DecidableEq

/-- Modelled from the spec (section 4.5; backend source absent): quintile
boundaries come from the entire course population's trait values,
independent of the queried athlete and of the filters; the athlete's
filtered qualifying races are bucketed by their course's trait value; all
five quintiles are reported, empty ones with race count 0 and null
aggregates. -/
def athleteCourseTraitQuintiles (population : List ℚ)
    (athleteRaces : List TraitRaceObs) (f : QueryFilters) : TraitQuintilesResult :=
  let qualifying := athleteRaces.filter (filtersMatch f)
  { boundaries := quintileBoundaries population
  , records := [1, 2, 3, 4, 5].map (fun q =>
      let inQ := qualifying.filter (fun o => quintileOf population o.traitValue == q)
      { quintile := q
      , raceCount := inQ.length
      , avgZ := if inQ.length = 0 then none
                else some (fieldMean (inQ.map TraitRaceObs.z))
      , avgRank := if inQ.length = 0 then none
                   else some (fieldMean (inQ.map TraitRaceObs.rank)) }) }

/-- C7: the quintile boundary values are a function of the course
population alone — any two athletes (and any two filter sets) queried for
the same trait receive identical boundary values, namely the 20/40/60/80th
percentiles of the population; on the population [10, 20, 30, 40, 50, 60]
those are [20, 30, 40, 50]. -/
theorem c7_quintile_boundaries_athlete_independent :
    (∀ (population : List ℚ) (a1 a2 : List TraitRaceObs) (f1 f2 : QueryFilters),
        (athleteCourseTraitQuintiles population a1 f1).boundaries
          = (athleteCourseTraitQuintiles population a2 f2).boundaries)
    ∧ (∀ (population : List ℚ) (a : List TraitRaceObs) (f : QueryFilters),
        (athleteCourseTraitQuintiles population a f).boundaries
          = quintileBoundaries population)
    ∧ quintileBoundaries [10, 20, 30, 40, 50, 60] = [20, 30, 40, 50] := by
  refine ⟨fun _ _ _ _ _ => rfl, fun _ _ _ => rfl, ?_⟩
  have h2 : Int.toNat 2 = 2 := rfl
  have h3 : Int.toNat 3 = 3 := rfl
  have h4 : Int.toNat 4 = 4 := rfl
  norm_num [quintileBoundaries, percentileCont, sortedVals, List.mergeSort,
    h2, h3, h4]

/-! ## Strokes-Gained Calculator, bib-adjusted variant (spec section 4.3) -/

/-- One result row of a race field as the bib-adjusted calculator sees it:
finishing rank (none for DNF/DSQ/DNS) and start bib (none when bib data is
missing). -/
structure FieldResult where
  rank : Option ℚ
  bib : Option ℚ
deriving DecidableEq

/-- The valid (ranked) results of the field. -/
def validResults (field : List FieldResult) : List FieldResult :=
  field.filter (fun e => e.rank.isSome)

/-- Failures of the bib-adjusted calculator. -/
inductive BibFailure
  | insufficientField
  | noBibData
deriving DecidableEq

/-- Bib-adjusted strokes-gained record: the bib-expected rank from the
rank-on-bib fit and the signed residual bib advantage. -/
structure BibAdjustedRecord where
  expectedRank : ℚ
  bibAdvantage : ℚ
deriving DecidableEq

/-- The (bib, rank) points of the field used for the rank-on-bib fit. -/
def bibRankPoints (field : List FieldResult) : List (ℚ × ℚ) :=
  (validResults field).filterMap (fun e =>
    match e.bib, e.rank with
    | some b, some r => some (b, r)
    | _, _ => none)

/-- Modelled from the spec (section 4.3; backend source absent):
bib-adjusted strokes gained for one queried result.  Fails with
InsufficientField when the field has fewer than 3 valid results (the stated
minimum for a meaningful bib trend), then with NoBibData when the queried
result carries no bib number; otherwise fits a simple regression of
finishing rank on start bib across the field and returns the residual
between actual and bib-expected rank. -/
def athleteStrokesGainedBib (field : List FieldResult)
    (queriedBib : Option ℚ) (queriedRank : ℚ) :
    Except BibFailure BibAdjustedRecord :=
  if (validResults field).length < 3 then .error .insufficientField
  else
    match queriedBib with
    | none => .error .noBibData
    | some b =>
      let ps := bibRankPoints field
      let xs := ps.map Prod.fst
      let slope := covQ ps / fieldVariance xs
      let intercept := fieldMean (ps.map Prod.snd) - slope * fieldMean xs
      let expected := intercept + slope * b
      .ok { expectedRank := expected, bibAdvantage := expected - queriedRank }

/-- C8: the bib-adjusted calculator fails with InsufficientField exactly
when the field has fewer than 3 valid results — in particular a field of
size 2 fails — and fails with NoBibData when the queried result has no bib
number in a sufficient field. -/
theorem c8_bib_failure_conditions :
    (∀ (field : List FieldResult) (qb : Option ℚ) (qr : ℚ),
        athleteStrokesGainedBib field qb qr
            = Except.error BibFailure.insufficientField
          ↔ (validResults field).length < 3)
    ∧ (∀ (field : List FieldResult) (qr : ℚ),
        3 ≤ (validResults field).length →
        athleteStrokesGainedBib field none qr
          = Except.error BibFailure.noBibData)
    ∧ athleteStrokesGainedBib
        [{ rank := some 1, bib := some 3 }, { rank := some 2, bib := some 7 }]
        (some 3) 1 = Except.error BibFailure.insufficientField := by
  refine ⟨?_, ?_, ?_⟩
  · intro field qb qr
    rw [athleteStrokesGainedBib.eq_def]
    split
    · rename_i h
      simpa using h
    · rename_i h
      cases qb <;> simp [h]
  · intro field qr h3
    rw [athleteStrokesGainedBib.eq_def]
    split
    · rename_i h
      omega
    · rfl
  · simp [athleteStrokesGainedBib, validResults]

/-- Witness for C8: a three-strong field queried for a result with no bib
reports NoBibData. -/
theorem c8_bib_failure_conditions_witness :
    athleteStrokesGainedBib
      [{ rank := some 1, bib := some 1 }, { rank := some 2, bib := some 2 },
       { rank := some 3, bib := some 3 }] none 2
      = Except.error BibFailure.noBibData :=
  c8_bib_failure_conditions.2.1 _ 2 (by simp [validResults])

/-! ## Momentum Tracker (spec section 4.6) -/

/-- Trend classification of a momentum record. -/
inductive Trend
  | hot
  | cold
  | neutral
deriving DecidableEq

/-- Modelled from the spec (section 4.6): hot above +0.5, cold below −0.5,
else neutral — fixed policy thresholds on the weighted value. -/
def classifyTrend (w : ℚ) : Trend :=
  if 1 / 2 < w then .hot
  else if w < -(1 / 2) then .cold
  else .neutral

/-- One momentum record: the race's instantaneous z-score, the running
exponentially-weighted value, and the trend classification. -/
structure MomentumRecord where
  z : ℚ
  weighted : ℚ
  trend : Trend
deriving DecidableEq

/-- Records after the first race, carrying the previous weighted value. -/
def momentumAux (alpha : ℚ) (prev : ℚ) : List ℚ → List MomentumRecord
  | [] => []
  | z :: zs =>
    let w := alpha * z + (1 - alpha) * prev
    { z := z, weighted := w, trend := classifyTrend w } :: momentumAux alpha w zs

/-- Modelled from the spec (section 4.6; backend source absent): one
MomentumRecord per race in chronological order; the first race's weighted
value is its own z-score, and each later one is the exponentially-weighted
moving average with fixed decay alpha. -/
def athleteMomentum (alpha : ℚ) : List ℚ → List MomentumRecord
  | [] => []
  | z :: zs =>
    { z := z, weighted := z, trend := classifyTrend z } :: momentumAux alpha z zs

/-- C9: for an athlete with exactly one qualifying race, athleteMomentum
returns exactly one MomentumRecord, and that record's
exponentially-weighted moving value equals the race's instantaneous
z-score (for every decay constant). -/
theorem c9_single_race_momentum :
    ∀ alpha z : ℚ,
      athleteMomentum alpha [z]
          = [{ z := z, weighted := z, trend := classifyTrend z }]
        ∧ (athleteMomentum alpha [z]).length = 1
        ∧ ∀ r ∈ athleteMomentum alpha [z], r.weighted = r.z :=
  fun _alpha z => ⟨rfl, rfl, by simp [athleteMomentum, momentumAux]⟩

/-- Witness for C9: the single record of a one-race history (z-score 2,
decay one quarter) has weighted value equal to its z-score. -/
theorem c9_single_race_momentum_witness :
    ({ z := (2 : ℚ), weighted := 2, trend := classifyTrend 2 } :
        MomentumRecord).weighted
      = ({ z := (2 : ℚ), weighted := 2, trend := classifyTrend 2 } :
        MomentumRecord).z :=
  (c9_single_race_momentum (1 / 4) 2).2.2 _ (by simp [athleteMomentum, momentumAux])

end FisAnalytics
